import Mathlib

/-!
Shallow embedding of the backend process supervision and health-monitoring
subsystem of the Unsubscriber desktop shell:

* `BackendManager` (src/main/services/backend-manager.ts): spawns the Python
  backend, discovers its port from a stdout announcement, waits for the
  health endpoint, and tracks running/port/process state.
* `HealthCheckService` (src/main/services/health-check.ts): polls the health
  endpoint every 5 s, counts consecutive failures, and escalates (stopping
  its own schedule) at the failure threshold.

State fields mirror the private fields of the TypeScript classes; the
asynchronous environment (which stdout chunks arrive in time, whether the
health endpoint answers, whether the child process exits within the grace
period) is passed in explicitly as data.  Timestamps (Date.now()) are `Nat`.
-/

/-! ## Shared constants (src/shared/constants.ts, APP_CONSTANTS) -/

def BACKEND_STARTUP_TIMEOUT_MS : Nat := 30000

def BACKEND_HEALTH_ENDPOINT : String := "/health"

def HEALTH_CHECK_INTERVAL_MS : Nat := 5000

def HEALTH_CHECK_FAILURE_THRESHOLD : Nat := 3

def HEALTH_CHECK_TIMEOUT_MS : Nat := 3000

/-- Grace period of `stop()` before the forceful kill: the literal `5000`
in the `setTimeout` of `BackendManager.stop`. -/
def STOP_GRACE_MS : Nat := 5000

/-! ## Port announcement parsing

The stdout data handler runs `output.match(/PORT:(\d+)/)` on the trimmed
chunk and, on a match, `parseInt(portMatch[1], 10)`. -/

/-- Decimal value of a digit run, as `parseInt(digits, 10)` computes it. -/
def digitsValue (ds : List Char) : Nat :=
  ds.foldl (fun a c => a * 10 + (c.toNat - 48)) 0

/-- First match of the regular expression PORT:(\d+) in a character list:
scan left to right for the literal P,O,R,T,colon followed by at least one
digit; the captured group is the maximal digit run after the colon. -/
def scanPort : List Char → Option Nat
  | [] => none
  | c :: cs =>
      if c = 'P' ∧ cs.take 4 = ['O', 'R', 'T', ':'] then
        let ds := (cs.drop 4).takeWhile Char.isDigit
        if ds.isEmpty then scanPort cs else some (digitsValue ds)
      else scanPort cs

/-- Strip leading and trailing whitespace from a character list, as
`String.prototype.trim` does. -/
def trimChars (cs : List Char) : List Char :=
  ((cs.dropWhile Char.isWhitespace).reverse.dropWhile Char.isWhitespace).reverse

/-- Port announced by one stdout chunk: the handler trims the chunk
(`data.toString().trim()`) and matches the pattern. -/
def chunkPort (chunk : String) : Option Nat :=
  scanPort (trimChars chunk.data)

/-- All port announcements contained in a sequence of stdout chunks,
in arrival order. -/
def announcedPorts (chunks : List String) : List Nat :=
  chunks.filterMap chunkPort

/-! ## BackendManager state (src/main/services/backend-manager.ts) -/

/-- BackendStatus record of src/shared/types.ts. -/
structure BackendStatus where
  isRunning : Bool
  port : Option Nat
  pid : Option Nat
  error : Option String
deriving Repr, DecidableEq

/-- Private fields of the BackendManager class.  The tracked child process
is represented by its pid.  `nextPromiseId` and `spawnCount` are ghost
instrumentation: they number the startup promises handed out by `start()`
and count `spawn` invocations, without influencing any behaviour. -/
structure BackendManager where
  process : Option Nat
  port : Option Nat
  isRunning : Bool
  startupPromise : Option Nat
  nextPromiseId : Nat
  spawnCount : Nat
deriving Repr, DecidableEq

/-- Field values of a freshly constructed BackendManager. -/
def BackendManager.initial : BackendManager :=
  { process := none, port := none, isRunning := false, startupPromise := none,
    nextPromiseId := 0, spawnCount := 0 }

/-- JavaScript truthiness of `this.process?.pid || null`: a pid of 0 (and an
absent process) map to null. -/
def truthyPid : Option Nat → Option Nat
  | some p => if p = 0 then none else some p
  | none => none

/-- getStatus(): snapshot of the current state; its error field is the
literal `null` of the source. -/
def BackendManager.getStatus (s : BackendManager) : BackendStatus :=
  { isRunning := s.isRunning, port := s.port, pid := truthyPid s.process,
    error := none }

/-- getBaseUrl(): `this.port ? url : null`, so a port of 0 (falsy) also
yields null. -/
def BackendManager.getBaseUrl (s : BackendManager) : Option String :=
  match s.port with
  | some p => if p = 0 then none else some ("http://127.0.0.1:" ++ toString p)
  | none => none

/-- The stdout data handler registered in `_startInternal`: on a pattern
match it assigns `this.port` unconditionally (there is no check that a port
was already discovered); other chunks are only logged. -/
def BackendManager.onStdoutData (s : BackendManager) (chunk : String) : BackendManager :=
  match chunkPort chunk with
  | some p => { s with port := some p }
  | none => s

/-- The close-event handler registered in `_startInternal`: clears
isRunning, port and the tracked process.  It can fire at any time while a
process is tracked, including long after a successful startup. -/
def BackendManager.onClose (s : BackendManager) : BackendManager :=
  { s with isRunning := false, port := none, process := none }

/-- The error-event handler registered in `_startInternal`: clears
isRunning and port but leaves `this.process` assigned. -/
def BackendManager.onError (s : BackendManager) : BackendManager :=
  { s with isRunning := false, port := none }

/-! ## start()

`start()` caches the in-flight `_startInternal()` promise in
`this.startupPromise` and hands the same promise to every caller until it
settles (the `finally` clears it).  Two granularities are embedded:

* `startCall` is the synchronous part of one `start()` invocation — the
  in-flight check, and (when a new attempt begins) the prefix of
  `_startInternal` executed before its first suspension point: the
  isRunning check, the `spawn`, and the handler registration.
* `startRun` is one whole `_startInternal()` run from invocation to
  settlement, with the asynchronous environment supplied as `StartEnv`.
-/

/-- Asynchronous environment of one `_startInternal` run. -/
structure StartEnv where
  /-- Some error message when `spawn` itself throws; otherwise the spawn
  succeeds. -/
  spawnFault : Option String
  /-- Pid the OS assigns to the spawned process. -/
  pid : Nat
  /-- Stdout chunks delivered before `waitForPort` settles. -/
  stdoutChunks : List String
  /-- Whether the health endpoint answers 200 with body status field
  healthy within the startup timeout. -/
  healthyInTime : Bool
deriving Repr, DecidableEq

/-- Synchronous part of one `start()` call: returns the id of the startup
promise the caller receives, and the updated state.  If a startup promise
is already cached, the caller gets that same promise and nothing else
happens; otherwise a fresh `_startInternal()` begins (spawning only when
the backend is not already running) and its promise is cached. -/
def BackendManager.startCall (s : BackendManager) (pid : Nat) : Nat × BackendManager :=
  match s.startupPromise with
  | some pr => (pr, s)
  | none =>
      let pr := s.nextPromiseId
      let s1 := { s with startupPromise := some pr, nextPromiseId := s.nextPromiseId + 1 }
      if s1.isRunning then (pr, s1)
      else (pr, { s1 with process := some pid, spawnCount := s1.spawnCount + 1 })

/-- Outcome of one `_startInternal()` run. -/
structure StartRunResult where
  /-- The BackendStatus the startup promise resolves with.  Every branch of
  `_startInternal`, including its catch block, returns a status, so the
  promise always resolves and never rejects. -/
  resolved : BackendStatus
  /-- State of the manager when the promise settles (the `finally` block
  has cleared `startupPromise`). -/
  state : BackendManager
  /-- Whether a readiness probe (health-endpoint request inside
  `waitForHealthy`) was attempted during the run. -/
  probed : Bool
deriving Repr, DecidableEq

/-- One whole `_startInternal()` run.  Mirrors the source's control flow:
the isRunning early return; the spawn (whose synchronous throw lands in the
catch block); `waitForPort`, which resolves with `this.port` once the
delivered chunks have set it and otherwise rejects after the startup
timeout; `this.isRunning = true`; `waitForHealthy`, which throws before any
probe when `this.port` is falsy, probes until the endpoint reports healthy,
and throws after the startup timeout otherwise.  Every throw is caught and
turned into a resolved failure status; the catch block does not roll back
the state mutations already performed. -/
def BackendManager.startRun (s : BackendManager) (env : StartEnv) : StartRunResult :=
  if s.isRunning then
    { resolved := s.getStatus, state := { s with startupPromise := none }, probed := false }
  else
    match env.spawnFault with
    | some msg =>
        { resolved := { isRunning := false, port := none, pid := none, error := some msg },
          state := { s with startupPromise := none }, probed := false }
    | none =>
        let s1 := { s with process := some env.pid, spawnCount := s.spawnCount + 1 }
        let pid0 := truthyPid (some env.pid)
        let s2 := env.stdoutChunks.foldl BackendManager.onStdoutData s1
        match s2.port with
        | none =>
            { resolved := { isRunning := false, port := none, pid := none,
                            error := some "Backend did not announce port within timeout" },
              state := { s2 with startupPromise := none }, probed := false }
        | some p =>
            let s3 := { s2 with isRunning := true }
            if p = 0 then
              { resolved := { isRunning := false, port := none, pid := none,
                              error := some "Cannot check health: port not available" },
                state := { s3 with startupPromise := none }, probed := false }
            else if env.healthyInTime then
              { resolved := { isRunning := true, port := some p, pid := pid0, error := none },
                state := { s3 with startupPromise := none }, probed := true }
            else
              { resolved := { isRunning := false, port := none, pid := none,
                              error := some "Backend did not become healthy within timeout" },
                state := { s3 with startupPromise := none }, probed := true }

/-! ## stop() -/

/-- How the tracked process reacts to the termination signals. -/
inductive StopEnv where
  | exitsWithinGrace
  | exitsAfterForce
  | neverExits
deriving Repr, DecidableEq

/-- Outcome of one `stop()` call: the kill signals issued, whether the
returned promise resolved, and the state afterwards. -/
structure StopResult where
  signals : List String
  resolved : Bool
  finalState : BackendManager
deriving Repr, DecidableEq

/-- stop(): without a tracked process it returns immediately.  Otherwise it
registers a once-listener on the close event that clears
isRunning/port/process and resolves; sends SIGTERM; and arms a 5 s timer
(`STOP_GRACE_MS`) that sends SIGKILL only if `this.process` is still
assigned — so a process that exits within the grace period receives no
SIGKILL, and the promise resolves only when the close event is observed. -/
def BackendManager.stopRun (s : BackendManager) (env : StopEnv) : StopResult :=
  match s.process with
  | none => { signals := [], resolved := true, finalState := s }
  | some _ =>
      match env with
      | .exitsWithinGrace =>
          { signals := ["SIGTERM"], resolved := true,
            finalState := { s with isRunning := false, port := none, process := none } }
      | .exitsAfterForce =>
          { signals := ["SIGTERM", "SIGKILL"], resolved := true,
            finalState := { s with isRunning := false, port := none, process := none } }
      | .neverExits =>
          { signals := ["SIGTERM", "SIGKILL"], resolved := false, finalState := s }

/-! ## HealthCheckService state (src/main/services/health-check.ts) -/

/-- HealthCheckStatus record of src/shared/types.ts. -/
structure HealthCheckStatus where
  isHealthy : Bool
  consecutiveFailures : Nat
  lastCheck : Option Nat
  error : Option String
deriving Repr, DecidableEq

/-- Private fields of the HealthCheckService class.  `intervalId` records
whether the setInterval schedule is armed; `hasWindow` whether a live
mainWindow is set (`setMainWindow` was called and the window is not
destroyed).  `emitted` and `dialogs` are ghost instrumentation recording
the statuses pushed to the renderer and the critical dialogs shown. -/
structure HealthCheckService where
  intervalId : Bool
  status : HealthCheckStatus
  isRunning : Bool
  hasWindow : Bool
  emitted : List HealthCheckStatus
  dialogs : Nat
deriving Repr, DecidableEq

/-- Field values of a freshly constructed HealthCheckService. -/
def HealthCheckService.initial : HealthCheckService :=
  { intervalId := false,
    status := { isHealthy := true, consecutiveFailures := 0, lastCheck := none, error := none },
    isRunning := false, hasWindow := false, emitted := [], dialogs := 0 }

/-- setMainWindow(): gives the service a live window reference. -/
def HealthCheckService.setMainWindow (s : HealthCheckService) : HealthCheckService :=
  { s with hasWindow := true }

/-- getStatus(): spread copy of the status record. -/
def HealthCheckService.getStatus (s : HealthCheckService) : HealthCheckStatus :=
  s.status

/-- notifyRenderer(): pushes a snapshot of the current status to the
renderer when a live window is set. -/
def HealthCheckService.notifyRenderer (s : HealthCheckService) : HealthCheckService :=
  if s.hasWindow then { s with emitted := s.emitted ++ [s.status] } else s

/-- stop(): early return when not running; otherwise clears the interval
and the running flag, leaving the status record untouched. -/
def HealthCheckService.stop (s : HealthCheckService) : HealthCheckService :=
  if s.isRunning then { s with intervalId := false, isRunning := false } else s

/-- handleCriticalFailure(): stops the monitor's own schedule, then shows
the critical error dialog when a live window is set (the renderer
notification chained on the dialog's acknowledgment is asynchronous and
outside the check cycle). -/
def HealthCheckService.handleCriticalFailure (s : HealthCheckService) : HealthCheckService :=
  let s1 := s.stop
  if s1.hasWindow then { s1 with dialogs := s1.dialogs + 1 } else s1

/-- handleSuccess(): resets the status record to healthy and notifies the
renderer. -/
def HealthCheckService.handleSuccess (s : HealthCheckService) (now : Nat) : HealthCheckService :=
  HealthCheckService.notifyRenderer
    { s with status := { isHealthy := true, consecutiveFailures := 0,
                         lastCheck := some now, error := none } }

/-- handleFailure(): increments the consecutive-failure counter, stamps the
check time and failure reason, and — when the counter has reached the
threshold — marks the status unhealthy and runs the critical-failure path;
in every case it then notifies the renderer. -/
def HealthCheckService.handleFailure (s : HealthCheckService) (e : String) (now : Nat) :
    HealthCheckService :=
  let st := { s.status with consecutiveFailures := s.status.consecutiveFailures + 1,
                            lastCheck := some now, error := some e }
  let s1 := { s with status := st }
  let s2 :=
    if HEALTH_CHECK_FAILURE_THRESHOLD ≤ st.consecutiveFailures then
      HealthCheckService.handleCriticalFailure { s1 with status := { st with isHealthy := false } }
    else s1
  s2.notifyRenderer

/-- Outcome of the probe a single check cycle performs. -/
inductive ProbeResult where
  /-- `backendManager.getBaseUrl()` returned null. -/
  | noUrl
  /-- The GET threw: network error, per-request timeout, or a status other
  than 200 (rejected by `validateStatus`); `msg` is the error message. -/
  | requestFault (msg : String)
  /-- HTTP 200 with `body` as the status field of the JSON body. -/
  | ok (body : String)
deriving Repr, DecidableEq

/-- Whether a probe outcome takes the failure path of `performCheck`. -/
def ProbeResult.fails : ProbeResult → Bool
  | .noUrl => true
  | .requestFault _ => true
  | .ok body => !(body == "healthy")

/-- The failure reason `performCheck` reports for a failing probe. -/
def ProbeResult.failMsg : ProbeResult → String
  | .noUrl => "Backend URL not available"
  | .requestFault msg => "Health check request failed: " ++ msg
  | .ok _ => "Backend reported unhealthy status"

/-- performCheck(): one check cycle, dispatching on the probe outcome as
the source does — no URL and request errors are failures, a 200 response
is a success exactly when its body status field is the healthy sentinel. -/
def HealthCheckService.performCheck (s : HealthCheckService) (r : ProbeResult) (now : Nat) :
    HealthCheckService :=
  match r with
  | .noUrl => s.handleFailure "Backend URL not available" now
  | .requestFault msg => s.handleFailure ("Health check request failed: " ++ msg) now
  | .ok body =>
      if body = "healthy" then s.handleSuccess now
      else s.handleFailure "Backend reported unhealthy status" now

/-- start(): early return when already running; otherwise sets the running
flag, resets the failure counter and health flag, performs the immediate
check (`r`/`now` are that check's probe outcome and time), and arms the
interval schedule. -/
def HealthCheckService.start (s : HealthCheckService) (r : ProbeResult) (now : Nat) :
    HealthCheckService :=
  if s.isRunning then s
  else
    { HealthCheckService.performCheck
        { s with isRunning := true,
                 status := { s.status with consecutiveFailures := 0, isHealthy := true } }
        r now
      with intervalId := true }

/-- One timer tick: the interval callback runs `performCheck` only while
the schedule is armed; a cancelled interval never fires.  The boolean
reports whether a check was performed. -/
def HealthCheckService.tick (s : HealthCheckService) (r : ProbeResult) (now : Nat) :
    HealthCheckService × Bool :=
  if s.intervalId then (s.performCheck r now, true) else (s, false)

/-- The operations that can act on the monitor's state: a start (with its
immediate check's probe outcome), a stop, and an interval tick. -/
inductive HMOp where
  | opStart (r : ProbeResult) (t : Nat)
  | opStop
  | opTick (r : ProbeResult) (t : Nat)
deriving Repr, DecidableEq

/-- Apply one operation to the monitor's state. -/
def HealthCheckService.applyOp (s : HealthCheckService) : HMOp → HealthCheckService
  | .opStart r t => s.start r t
  | .opStop => s.stop
  | .opTick r t => (s.tick r t).1

/-- Whether an operation is a check that took the success path. -/
def HMOp.isSuccessCheck : HMOp → Bool
  | .opTick (.ok body) _ => body == "healthy"
  | _ => false

/-- Whether an operation is a start of the monitor. -/
def HMOp.isStart : HMOp → Bool
  | .opStart _ _ => true
  | _ => false

/-- State relation of the crash-detection claim: a non-null discovered port
is only ever held while a child process is tracked. -/
def PortImpliesTracked (s : BackendManager) : Prop :=
  s.port ≠ none → s.process ≠ none

/-! ## Helper lemmas -/

theorem foldl_onStdoutData_port (chunks : List String) (s : BackendManager) :
    (chunks.foldl BackendManager.onStdoutData s).port =
      (announcedPorts chunks).foldl (fun _ p => some p) s.port := by
  induction chunks generalizing s with
  | nil => rfl
  | cons c cs ih =>
      cases h : chunkPort c with
      | none =>
          simp only [List.foldl_cons, announcedPorts, List.filterMap_cons, h]
          simpa [BackendManager.onStdoutData, h, announcedPorts] using ih s
      | some p =>
          simp only [List.foldl_cons, announcedPorts, List.filterMap_cons, h]
          have := ih { s with port := some p }
          simpa [BackendManager.onStdoutData, h, announcedPorts] using this

theorem foldl_onStdoutData_process (chunks : List String) (s : BackendManager) :
    (chunks.foldl BackendManager.onStdoutData s).process = s.process := by
  induction chunks generalizing s with
  | nil => rfl
  | cons c cs ih =>
      cases h : chunkPort c <;>
        simp [List.foldl_cons, BackendManager.onStdoutData, h, ih]

theorem handleFailure_status (s : HealthCheckService) (e : String) (now : Nat) :
    (s.handleFailure e now).status =
      { isHealthy :=
          if HEALTH_CHECK_FAILURE_THRESHOLD ≤ s.status.consecutiveFailures + 1 then false
          else s.status.isHealthy,
        consecutiveFailures := s.status.consecutiveFailures + 1,
        lastCheck := some now, error := some e } := by
  unfold HealthCheckService.handleFailure HealthCheckService.handleCriticalFailure
    HealthCheckService.stop HealthCheckService.notifyRenderer
  by_cases h : HEALTH_CHECK_FAILURE_THRESHOLD ≤ s.status.consecutiveFailures + 1 <;>
    simp [h] <;> split <;> simp <;> split <;> simp

theorem handleFailure_intervalId (s : HealthCheckService) (e : String) (now : Nat) :
    (s.handleFailure e now).intervalId =
      if HEALTH_CHECK_FAILURE_THRESHOLD ≤ s.status.consecutiveFailures + 1 then
        (if s.isRunning then false else s.intervalId)
      else s.intervalId := by
  unfold HealthCheckService.handleFailure HealthCheckService.handleCriticalFailure
    HealthCheckService.stop HealthCheckService.notifyRenderer
  by_cases h : HEALTH_CHECK_FAILURE_THRESHOLD ≤ s.status.consecutiveFailures + 1 <;>
    by_cases hr : s.isRunning <;> by_cases hw : s.hasWindow <;>
      simp [h, hr, hw]

theorem handleFailure_isRunning (s : HealthCheckService) (e : String) (now : Nat) :
    (s.handleFailure e now).isRunning =
      if HEALTH_CHECK_FAILURE_THRESHOLD ≤ s.status.consecutiveFailures + 1 then false
      else s.isRunning := by
  unfold HealthCheckService.handleFailure HealthCheckService.handleCriticalFailure
    HealthCheckService.stop HealthCheckService.notifyRenderer
  by_cases h : HEALTH_CHECK_FAILURE_THRESHOLD ≤ s.status.consecutiveFailures + 1 <;>
    by_cases hr : s.isRunning <;> by_cases hw : s.hasWindow <;>
      simp [h, hr, hw]

theorem handleSuccess_status (s : HealthCheckService) (now : Nat) :
    (s.handleSuccess now).status =
      { isHealthy := true, consecutiveFailures := 0, lastCheck := some now, error := none } := by
  unfold HealthCheckService.handleSuccess HealthCheckService.notifyRenderer
  split <;> simp

theorem handleSuccess_emitted (s : HealthCheckService) (now : Nat) (h : s.hasWindow = true) :
    (s.handleSuccess now).emitted =
      s.emitted ++
        [{ isHealthy := true, consecutiveFailures := 0, lastCheck := some now, error := none }] := by
  unfold HealthCheckService.handleSuccess HealthCheckService.notifyRenderer
  simp [h]

theorem performCheck_fails (s : HealthCheckService) (r : ProbeResult) (now : Nat)
    (h : r.fails = true) : s.performCheck r now = s.handleFailure r.failMsg now := by
  cases r with
  | noUrl => rfl
  | requestFault msg => rfl
  | ok body =>
      have hb : ¬ body = "healthy" := by
        simpa [ProbeResult.fails] using h
      simp [HealthCheckService.performCheck, ProbeResult.failMsg, hb]

theorem performCheck_healthy (s : HealthCheckService) (now : Nat) :
    s.performCheck (.ok "healthy") now = s.handleSuccess now := by
  simp [HealthCheckService.performCheck]

/-! ## Claim theorems -/

/-- C1: with the failure threshold 3, three consecutive failing checks flip
isHealthy from true to false exactly on the third failure (not before); at
that moment the monitor stops its own schedule (interval cleared, running
flag off), and a subsequent interval tick performs no check at all. -/
theorem c1_failure_threshold_stops_polling
    (s : HealthCheckService) (r1 r2 r3 r4 : ProbeResult) (t1 t2 t3 t4 : Nat)
    (hrun : s.isRunning = true) (_hint : s.intervalId = true)
    (hh : s.status.isHealthy = true) (hf : s.status.consecutiveFailures = 0)
    (h1 : r1.fails = true) (h2 : r2.fails = true) (h3 : r3.fails = true) :
    HEALTH_CHECK_FAILURE_THRESHOLD = 3
    ∧ (s.performCheck r1 t1).status.isHealthy = true
    ∧ ((s.performCheck r1 t1).performCheck r2 t2).status.isHealthy = true
    ∧ (((s.performCheck r1 t1).performCheck r2 t2).performCheck r3 t3).status.isHealthy = false
    ∧ (((s.performCheck r1 t1).performCheck r2 t2).performCheck r3 t3).status.consecutiveFailures
        = HEALTH_CHECK_FAILURE_THRESHOLD
    ∧ (((s.performCheck r1 t1).performCheck r2 t2).performCheck r3 t3).intervalId = false
    ∧ (((s.performCheck r1 t1).performCheck r2 t2).performCheck r3 t3).isRunning = false
    ∧ (((s.performCheck r1 t1).performCheck r2 t2).performCheck r3 t3).tick r4 t4
        = ((((s.performCheck r1 t1).performCheck r2 t2).performCheck r3 t3), false) := by
  rw [performCheck_fails s r1 t1 h1, performCheck_fails _ r2 t2 h2, performCheck_fails _ r3 t3 h3]
  simp [handleFailure_status, handleFailure_intervalId, handleFailure_isRunning,
    HEALTH_CHECK_FAILURE_THRESHOLD, hf, hh, hrun, HealthCheckService.tick]

/-- Concrete run of `c1_failure_threshold_stops_polling`: a monitor started
against a healthy backend, then three failing checks; the schedule is
stopped and a fourth tick performs no check. -/
theorem c1_failure_threshold_stops_polling_witness :
    ((((HealthCheckService.initial.start (.ok "healthy") 0).performCheck .noUrl 1).performCheck
          .noUrl 2).performCheck .noUrl 3).status.isHealthy = false
    ∧ ((((HealthCheckService.initial.start (.ok "healthy") 0).performCheck .noUrl 1).performCheck
          .noUrl 2).performCheck .noUrl 3).intervalId = false
    ∧ ((((HealthCheckService.initial.start (.ok "healthy") 0).performCheck .noUrl 1).performCheck
          .noUrl 2).performCheck .noUrl 3).tick .noUrl 4
        = (((((HealthCheckService.initial.start (.ok "healthy") 0).performCheck
                .noUrl 1).performCheck .noUrl 2).performCheck .noUrl 3), false) := by
  have h := c1_failure_threshold_stops_polling
    (HealthCheckService.initial.start (.ok "healthy") 0) .noUrl .noUrl .noUrl .noUrl 1 2 3 4
    (by decide) (by decide) (by decide) (by decide) (by decide) (by decide) (by decide)
  exact ⟨h.2.2.2.1, h.2.2.2.2.2.1, h.2.2.2.2.2.2.2⟩

/-- C6: in every monitor state, a single successful check resets
consecutiveFailures to 0, sets isHealthy to true, clears the error field,
stamps the last-checked timestamp, and (with a live window) notifies the
renderer with exactly that status. -/
theorem c6_success_resets_counter (s : HealthCheckService) (t : Nat)
    (hw : s.hasWindow = true) :
    (s.performCheck (.ok "healthy") t).status.isHealthy = true
    ∧ (s.performCheck (.ok "healthy") t).status.consecutiveFailures = 0
    ∧ (s.performCheck (.ok "healthy") t).status.error = none
    ∧ (s.performCheck (.ok "healthy") t).status.lastCheck = some t
    ∧ (s.performCheck (.ok "healthy") t).emitted =
        s.emitted ++
          [{ isHealthy := true, consecutiveFailures := 0, lastCheck := some t, error := none }] := by
  rw [performCheck_healthy]
  simp [handleSuccess_status, handleSuccess_emitted s t hw]

/-- Concrete run of `c6_success_resets_counter`: after two consecutive
failures, one success resets the counter to 0 and isHealthy to true. -/
theorem c6_success_resets_counter_witness :
    ((((HealthCheckService.initial.setMainWindow.start (.ok "healthy") 0).performCheck
          .noUrl 1).performCheck .noUrl 2).performCheck (.ok "healthy") 3).status.isHealthy = true
    ∧ ((((HealthCheckService.initial.setMainWindow.start (.ok "healthy") 0).performCheck
          .noUrl 1).performCheck .noUrl 2).performCheck
            (.ok "healthy") 3).status.consecutiveFailures = 0 := by
  have h := c6_success_resets_counter
    (((HealthCheckService.initial.setMainWindow.start (.ok "healthy") 0).performCheck
        .noUrl 1).performCheck .noUrl 2) 3 (by decide)
  exact ⟨h.1, h.2.1⟩

/-- C2 as stated is false: the stdout handler has no first-match guard, so
a later PORT line overwrites the discovered port instead of being ignored.
After the chunks PORT:54321 then PORT:99999 the port is 99999, not the
first announced 54321. -/
theorem c2_second_announcement_overwrites :
    (["PORT:54321", "PORT:99999"].foldl BackendManager.onStdoutData BackendManager.initial).port
      = some 99999
    ∧ ¬ (["PORT:54321", "PORT:99999"].foldl BackendManager.onStdoutData
          BackendManager.initial).port = some 54321 := by
  decide

/-- C2 amended: a line without the pattern never changes the state; the
discovered port always equals the most recent announcement (the last
announced value, later lines overwriting earlier ones), or stays at its
previous value when no line announces a port; and on the spec's example
lines, with a single announcement, the discovered port is exactly 54321. -/
theorem c2_amended_last_announcement_wins (s : BackendManager) (chunks : List String)
    (c : String) (hc : chunkPort c = none) :
    BackendManager.onStdoutData s c = s
    ∧ (chunks.foldl BackendManager.onStdoutData s).port =
        (announcedPorts chunks).foldl (fun _ p => some p) s.port
    ∧ (announcedPorts chunks = [] → (chunks.foldl BackendManager.onStdoutData s).port = s.port)
    ∧ (["noise", "PORT:54321", "more noise"].foldl BackendManager.onStdoutData
        BackendManager.initial).port = some 54321 := by
  refine ⟨?_, foldl_onStdoutData_port chunks s, ?_, by decide⟩
  · simp [BackendManager.onStdoutData, hc]
  · intro h
    rw [foldl_onStdoutData_port, h]
    rfl

/-- Concrete run of `c2_amended_last_announcement_wins` at the spec's
example chunk list. -/
theorem c2_amended_last_announcement_wins_witness :
    (["noise", "PORT:54321", "more noise"].foldl BackendManager.onStdoutData
      BackendManager.initial).port = some 54321 :=
  (c2_amended_last_announcement_wins BackendManager.initial ["noise"] "noise"
    (by decide)).2.2.2

theorem stop_status (s : HealthCheckService) : s.stop.status = s.status := by
  unfold HealthCheckService.stop
  split <;> rfl

theorem ProbeResult.fails_or_healthy (r : ProbeResult) :
    r.fails = true ∨ r = .ok "healthy" := by
  cases r with
  | noUrl => exact Or.inl rfl
  | requestFault m => exact Or.inl rfl
  | ok body =>
      by_cases hb : body = "healthy"
      · exact Or.inr (by rw [hb])
      · exact Or.inl (by simp [ProbeResult.fails, hb])

theorem handleFailure_inv (s : HealthCheckService) (e : String) (t : Nat)
    (hinv : s.status.isHealthy = false ↔
      HEALTH_CHECK_FAILURE_THRESHOLD ≤ s.status.consecutiveFailures) :
    ((s.handleFailure e t).status.isHealthy = false ↔
      HEALTH_CHECK_FAILURE_THRESHOLD ≤ (s.handleFailure e t).status.consecutiveFailures) := by
  have hst := handleFailure_status s e t
  by_cases hcrit : HEALTH_CHECK_FAILURE_THRESHOLD ≤ s.status.consecutiveFailures + 1
  · simp [hst, hcrit]
  · simp [hst, hcrit]
    cases hb : s.status.isHealthy
    · exact absurd (hinv.mp hb) (fun h => hcrit (h.trans (Nat.le_succ _)))
    · simp

theorem performCheck_inv (s : HealthCheckService) (r : ProbeResult) (t : Nat)
    (hinv : s.status.isHealthy = false ↔
      HEALTH_CHECK_FAILURE_THRESHOLD ≤ s.status.consecutiveFailures) :
    ((s.performCheck r t).status.isHealthy = false ↔
      HEALTH_CHECK_FAILURE_THRESHOLD ≤ (s.performCheck r t).status.consecutiveFailures) := by
  rcases ProbeResult.fails_or_healthy r with hf | he
  · rw [performCheck_fails s r t hf]
    exact handleFailure_inv s _ t hinv
  · rw [he, performCheck_healthy]
    simp [handleSuccess_status, HEALTH_CHECK_FAILURE_THRESHOLD]

theorem tick_armed (s : HealthCheckService) (r : ProbeResult) (t : Nat)
    (hi : s.intervalId = true) : (s.tick r t).1 = s.performCheck r t := by
  simp [HealthCheckService.tick, hi]

theorem tick_unarmed (s : HealthCheckService) (r : ProbeResult) (t : Nat)
    (hi : s.intervalId = false) : (s.tick r t).1 = s := by
  simp [HealthCheckService.tick, hi]

theorem start_running (s : HealthCheckService) (r : ProbeResult) (t : Nat)
    (hr : s.isRunning = true) : s.start r t = s := by
  simp [HealthCheckService.start, hr]

theorem start_not_running (s : HealthCheckService) (r : ProbeResult) (t : Nat)
    (hr : s.isRunning = false) :
    s.start r t =
      { HealthCheckService.performCheck
          { s with isRunning := true,
                   status := { s.status with consecutiveFailures := 0, isHealthy := true } }
          r t
        with intervalId := true } := by
  simp [HealthCheckService.start, hr]

theorem start_inv (s : HealthCheckService) (r : ProbeResult) (t : Nat)
    (hinv : s.status.isHealthy = false ↔
      HEALTH_CHECK_FAILURE_THRESHOLD ≤ s.status.consecutiveFailures) :
    ((s.start r t).status.isHealthy = false ↔
      HEALTH_CHECK_FAILURE_THRESHOLD ≤ (s.start r t).status.consecutiveFailures) := by
  cases hr : s.isRunning
  · rw [start_not_running s r t hr]
    have h0 := performCheck_inv
      { s with isRunning := true,
               status := { s.status with consecutiveFailures := 0, isHealthy := true } }
      r t (by simp [HEALTH_CHECK_FAILURE_THRESHOLD])
    simpa using h0
  · rw [start_running s r t hr]
    exact hinv

theorem applyOp_inv (s : HealthCheckService) (op : HMOp)
    (hinv : s.status.isHealthy = false ↔
      HEALTH_CHECK_FAILURE_THRESHOLD ≤ s.status.consecutiveFailures) :
    ((s.applyOp op).status.isHealthy = false ↔
      HEALTH_CHECK_FAILURE_THRESHOLD ≤ (s.applyOp op).status.consecutiveFailures) := by
  cases op with
  | opStart r t => exact start_inv s r t hinv
  | opStop => simpa [HealthCheckService.applyOp, stop_status] using hinv
  | opTick r t =>
      show ((s.tick r t).1.status.isHealthy = false ↔
        HEALTH_CHECK_FAILURE_THRESHOLD ≤ (s.tick r t).1.status.consecutiveFailures)
      cases hi : s.intervalId
      · rw [tick_unarmed s r t hi]
        exact hinv
      · rw [tick_armed s r t hi]
        exact performCheck_inv s r t hinv

theorem applyOp_flip_false (s : HealthCheckService) (op : HMOp)
    (hinv : s.status.isHealthy = false ↔
      HEALTH_CHECK_FAILURE_THRESHOLD ≤ s.status.consecutiveFailures)
    (hh : s.status.isHealthy = true)
    (hflip : (s.applyOp op).status.isHealthy = false) :
    (s.applyOp op).status.consecutiveFailures = HEALTH_CHECK_FAILURE_THRESHOLD := by
  have hnotf : ¬ HEALTH_CHECK_FAILURE_THRESHOLD ≤ s.status.consecutiveFailures := by
    intro hge
    rw [hinv.mpr hge] at hh
    cases hh
  cases op with
  | opStop =>
      rw [show s.applyOp .opStop = s.stop from rfl, stop_status, hh] at hflip
      cases hflip
  | opTick r t =>
      rw [show s.applyOp (.opTick r t) = (s.tick r t).1 from rfl] at hflip ⊢
      cases hi : s.intervalId
      · rw [tick_unarmed s r t hi, hh] at hflip
        cases hflip
      · rw [tick_armed s r t hi] at hflip ⊢
        rcases ProbeResult.fails_or_healthy r with hf | he
        · rw [performCheck_fails s r t hf] at hflip ⊢
          simp only [handleFailure_status] at hflip ⊢
          by_cases hcrit : HEALTH_CHECK_FAILURE_THRESHOLD ≤ s.status.consecutiveFailures + 1
          · omega
          · simp [hcrit, hh] at hflip
        · rw [he, performCheck_healthy] at hflip
          simp [handleSuccess_status] at hflip
  | opStart r t =>
      rw [show s.applyOp (.opStart r t) = s.start r t from rfl] at hflip
      cases hr : s.isRunning
      · rw [start_not_running s r t hr] at hflip
        rcases ProbeResult.fails_or_healthy r with hf | he
        · simp only [performCheck_fails _ r t hf, handleFailure_status] at hflip
          simp [HEALTH_CHECK_FAILURE_THRESHOLD] at hflip
        · rw [he] at hflip
          simp only [performCheck_healthy] at hflip
          simp [handleSuccess_status] at hflip
      · rw [start_running s r t hr, hh] at hflip
        cases hflip

theorem applyOp_flip_true (s : HealthCheckService) (op : HMOp)
    (hh : s.status.isHealthy = false)
    (hflip : (s.applyOp op).status.isHealthy = true) :
    (op.isSuccessCheck = true ∧ (s.applyOp op).status.consecutiveFailures = 0)
    ∨ (op.isStart = true ∧ (s.applyOp op).status.consecutiveFailures ≤ 1) := by
  cases op with
  | opStop =>
      rw [show s.applyOp .opStop = s.stop from rfl, stop_status, hh] at hflip
      cases hflip
  | opTick r t =>
      rw [show s.applyOp (.opTick r t) = (s.tick r t).1 from rfl] at hflip ⊢
      cases hi : s.intervalId
      · rw [tick_unarmed s r t hi, hh] at hflip
        cases hflip
      · rw [tick_armed s r t hi] at hflip ⊢
        rcases ProbeResult.fails_or_healthy r with hf | he
        · rw [performCheck_fails s r t hf] at hflip
          simp only [handleFailure_status] at hflip
          by_cases hcrit : HEALTH_CHECK_FAILURE_THRESHOLD ≤ s.status.consecutiveFailures + 1
          · simp [hcrit] at hflip
          · simp [hcrit, hh] at hflip
        · subst he
          rw [performCheck_healthy] at hflip ⊢
          refine Or.inl ⟨by simp [HMOp.isSuccessCheck], ?_⟩
          simp [handleSuccess_status]
  | opStart r t =>
      rw [show s.applyOp (.opStart r t) = s.start r t from rfl] at hflip ⊢
      cases hr : s.isRunning
      · rw [start_not_running s r t hr] at hflip ⊢
        refine Or.inr ⟨rfl, ?_⟩
        rcases ProbeResult.fails_or_healthy r with hf | he
        · simp only [performCheck_fails _ r t hf, handleFailure_status]
          simp
        · rw [he]
          simp only [performCheck_healthy]
          simp [handleSuccess_status]
      · rw [start_running s r t hr, hh] at hflip
        cases hflip

/-- C7 as stated is false on the code: after start, three failing checks
(the monitor stops, unhealthy, 3 failures), calling start() again flips
isHealthy back to true although no successful check occurred — its
immediate check here fails too, leaving consecutiveFailures at 1, not 0. -/
theorem c7_start_flips_health_without_success :
    ((((HealthCheckService.initial.start (.ok "healthy") 0).performCheck .noUrl 1).performCheck
        .noUrl 2).performCheck .noUrl 3).status.isHealthy = false
    ∧ (((((HealthCheckService.initial.start (.ok "healthy") 0).performCheck .noUrl 1).performCheck
        .noUrl 2).performCheck .noUrl 3).start .noUrl 4).status.isHealthy = true
    ∧ (((((HealthCheckService.initial.start (.ok "healthy") 0).performCheck .noUrl 1).performCheck
        .noUrl 2).performCheck .noUrl 3).start .noUrl 4).status.consecutiveFailures = 1
    ∧ HMOp.isSuccessCheck (.opStart .noUrl 4) = false := by
  decide

/-- C7 amended: across every operation (start, stop, each delivered check
outcome) the invariant holds that isHealthy is false exactly when
consecutiveFailures has reached the failure threshold; isHealthy flips to
false only at the moment consecutiveFailures reaches the threshold; and it
flips back to true only on a successful check (which resets
consecutiveFailures to 0) or on a restart of the monitor (which resets the
counter to 0 before its immediate check, so at most 1 afterwards). -/
theorem c7_amended_health_invariant (s : HealthCheckService) (op : HMOp)
    (hinv : s.status.isHealthy = false ↔
      HEALTH_CHECK_FAILURE_THRESHOLD ≤ s.status.consecutiveFailures) :
    ((s.applyOp op).status.isHealthy = false ↔
        HEALTH_CHECK_FAILURE_THRESHOLD ≤ (s.applyOp op).status.consecutiveFailures)
    ∧ (HealthCheckService.initial.status.isHealthy = false ↔
        HEALTH_CHECK_FAILURE_THRESHOLD ≤ HealthCheckService.initial.status.consecutiveFailures)
    ∧ (s.status.isHealthy = true → (s.applyOp op).status.isHealthy = false →
        (s.applyOp op).status.consecutiveFailures = HEALTH_CHECK_FAILURE_THRESHOLD)
    ∧ (s.status.isHealthy = false → (s.applyOp op).status.isHealthy = true →
        ((op.isSuccessCheck = true ∧ (s.applyOp op).status.consecutiveFailures = 0)
          ∨ (op.isStart = true ∧ (s.applyOp op).status.consecutiveFailures ≤ 1))) :=
  ⟨applyOp_inv s op hinv, by decide,
   fun hh hflip => applyOp_flip_false s op hinv hh hflip,
   fun hh hflip => applyOp_flip_true s op hh hflip⟩

/-- Concrete run of `c7_amended_health_invariant`: one failing tick on a
freshly started healthy monitor keeps the invariant. -/
theorem c7_amended_health_invariant_witness :
    ((HealthCheckService.initial.start (.ok "healthy") 0).applyOp
        (.opTick .noUrl 1)).status.isHealthy = false ↔
      HEALTH_CHECK_FAILURE_THRESHOLD ≤
        ((HealthCheckService.initial.start (.ok "healthy") 0).applyOp
          (.opTick .noUrl 1)).status.consecutiveFailures :=
  (c7_amended_health_invariant (HealthCheckService.initial.start (.ok "healthy") 0)
    (.opTick .noUrl 1) (by decide)).1

theorem onStdoutData_process (s : BackendManager) (chunk : String) :
    (s.onStdoutData chunk).process = s.process := by
  unfold BackendManager.onStdoutData
  cases chunkPort chunk <;> rfl

theorem startRun_state_tracked (s : BackendManager) (env : StartEnv)
    (hinv : PortImpliesTracked s) : PortImpliesTracked (s.startRun env).state := by
  unfold BackendManager.startRun
  cases hr : s.isRunning
  · simp only [hr, Bool.false_eq_true, if_false]
    split
    · intro h
      exact hinv h
    · split
      · intro _
        simp [foldl_onStdoutData_process]
      · split
        · intro _
          simp [foldl_onStdoutData_process]
        · split
          · intro _
            simp [foldl_onStdoutData_process]
          · intro _
            simp [foldl_onStdoutData_process]
  · simp only [hr, if_true]
    intro h
    exact hinv h

theorem stopRun_state_tracked (s : BackendManager) (env : StopEnv)
    (hinv : PortImpliesTracked s) : PortImpliesTracked (s.stopRun env).finalState := by
  unfold BackendManager.stopRun
  cases hp : s.process with
  | none => simpa using hinv
  | some pid =>
      cases env with
      | exitsWithinGrace => intro h; exact absurd rfl h
      | exitsAfterForce => intro h; exact absurd rfl h
      | neverExits => simpa using hinv

/-- C3: start() is idempotent — while a startup promise is in flight, a
second concurrent start() call returns the very same promise and changes
nothing (so the pair of calls spawns exactly one process, and both callers
resolve to the promise's single final status), and when the backend is
already running the startup run resolves immediately with the current
status and spawns nothing. -/
theorem c3_idempotent_start (s : BackendManager) (pidA pidB : Nat) (env : StartEnv)
    (hp : s.startupPromise = none) :
    ((s.startCall pidA).2.startCall pidB).1 = (s.startCall pidA).1
    ∧ ((s.startCall pidA).2.startCall pidB).2 = (s.startCall pidA).2
    ∧ (s.startCall pidA).2.spawnCount ≤ s.spawnCount + 1
    ∧ (s.isRunning = false → (s.startCall pidA).2.spawnCount = s.spawnCount + 1)
    ∧ (s.isRunning = true →
        (s.startCall pidA).2.spawnCount = s.spawnCount
        ∧ (s.startRun env).resolved = s.getStatus
        ∧ (s.startRun env).state.spawnCount = s.spawnCount) := by
  cases hr : s.isRunning <;>
    simp [BackendManager.startCall, hp, hr, BackendManager.startRun]

/-- Concrete run of `c3_idempotent_start`: two back-to-back calls on a
fresh manager share one promise and spawn once. -/
theorem c3_idempotent_start_witness :
    ((BackendManager.initial.startCall 11).2.startCall 12).1
        = (BackendManager.initial.startCall 11).1
    ∧ (BackendManager.initial.startCall 11).2.spawnCount
        = BackendManager.initial.spawnCount + 1 := by
  have h := c3_idempotent_start BackendManager.initial 11 12
    { spawnFault := none, pid := 11, stdoutChunks := [], healthyInTime := true } (by decide)
  exact ⟨h.1, h.2.2.2.1 (by decide)⟩

/-- C4: when no stdout chunk announces a port, the startup run resolves
(does not reject) with isRunning=false and the startup-timeout error, and
no readiness probe is attempted; the startup timeout default is 30000 ms. -/
theorem c4_startup_timeout_no_probe (s : BackendManager) (env : StartEnv)
    (hrun : s.isRunning = false) (hport : s.port = none)
    (hspawn : env.spawnFault = none) (hnone : announcedPorts env.stdoutChunks = []) :
    (s.startRun env).resolved.isRunning = false
    ∧ (s.startRun env).resolved.port = none
    ∧ (s.startRun env).resolved.error = some "Backend did not announce port within timeout"
    ∧ (s.startRun env).probed = false
    ∧ BACKEND_STARTUP_TIMEOUT_MS = 30000 := by
  have hnotrun : ¬ (s.isRunning = true) := by
    simp [hrun]
  have hfold : (env.stdoutChunks.foldl BackendManager.onStdoutData
      { s with process := some env.pid, spawnCount := s.spawnCount + 1 }).port = none := by
    rw [foldl_onStdoutData_port, hnone]
    exact hport
  unfold BackendManager.startRun
  rw [if_neg hnotrun]
  simp only [hspawn, hfold]
  simp [BACKEND_STARTUP_TIMEOUT_MS]

/-- Concrete run of `c4_startup_timeout_no_probe`: a backend that only
prints noise within the timeout. -/
theorem c4_startup_timeout_no_probe_witness :
    (BackendManager.initial.startRun
        { spawnFault := none, pid := 7, stdoutChunks := ["starting up"],
          healthyInTime := true }).resolved.error
      = some "Backend did not announce port within timeout"
    ∧ (BackendManager.initial.startRun
        { spawnFault := none, pid := 7, stdoutChunks := ["starting up"],
          healthyInTime := true }).probed = false := by
  have h := c4_startup_timeout_no_probe BackendManager.initial
    { spawnFault := none, pid := 7, stdoutChunks := ["starting up"], healthyInTime := true }
    (by decide) (by decide) (by decide) (by decide)
  exact ⟨h.2.2.1, h.2.2.2.1⟩

/-- C5: whenever the tracked process's close event fires — at any state,
without stop() being called — getStatus afterwards reports isRunning=false
and port=null (and pid=null); and the relation that a non-null port is only
held while a process is tracked is preserved by every operation: the
close/error/stdout handlers, a whole startup run, and a stop() call. -/
theorem c5_crash_clears_running_state (s : BackendManager) (chunk : String)
    (env : StartEnv) (stopEnv : StopEnv)
    (hproc : s.process ≠ none) (hinv : PortImpliesTracked s) :
    (s.onClose.getStatus.isRunning = false
      ∧ s.onClose.getStatus.port = none
      ∧ s.onClose.getStatus.pid = none)
    ∧ PortImpliesTracked s.onClose
    ∧ PortImpliesTracked s.onError
    ∧ PortImpliesTracked (s.onStdoutData chunk)
    ∧ PortImpliesTracked (s.startRun env).state
    ∧ PortImpliesTracked (s.stopRun stopEnv).finalState := by
  refine ⟨⟨rfl, rfl, rfl⟩, ?_, ?_, ?_,
    startRun_state_tracked s env hinv, stopRun_state_tracked s stopEnv hinv⟩
  · intro h
    exact absurd rfl h
  · intro h
    exact absurd rfl h
  · intro _
    rw [onStdoutData_process]
    exact hproc

/-- Concrete run of `c5_crash_clears_running_state`: a running backend with
a discovered port whose process closes unexpectedly. -/
theorem c5_crash_clears_running_state_witness :
    (({ process := some 9, port := some 50001, isRunning := true, startupPromise := none,
        nextPromiseId := 1, spawnCount := 1 } : BackendManager).onClose.getStatus.isRunning
        = false)
    ∧ (({ process := some 9, port := some 50001, isRunning := true, startupPromise := none,
          nextPromiseId := 1, spawnCount := 1 } : BackendManager).onClose.getStatus.port
        = none) := by
  have h := c5_crash_clears_running_state
    { process := some 9, port := some 50001, isRunning := true, startupPromise := none,
      nextPromiseId := 1, spawnCount := 1 } "noise"
    { spawnFault := none, pid := 9, stdoutChunks := [], healthyInTime := true }
    .exitsWithinGrace (by decide) (fun _ => by decide)
  exact ⟨h.1.1, h.1.2.1⟩

/-- C8: stop() with a tracked process sends SIGTERM first; when the process
exits within the grace period no SIGKILL is sent and stop resolves with
running/port/process cleared; when it only exits after the grace period a
SIGKILL follows and stop still resolves with the state cleared; stop does
not resolve before an exit event is observed; without a tracked process
stop returns immediately with no signals; the grace period is 5000 ms. -/
theorem c8_graceful_then_forced_stop (s : BackendManager) (pid : Nat) (env : StopEnv)
    (hp : s.process = some pid) :
    (s.stopRun .exitsWithinGrace).signals = ["SIGTERM"]
    ∧ (s.stopRun .exitsWithinGrace).resolved = true
    ∧ (s.stopRun .exitsWithinGrace).finalState.isRunning = false
    ∧ (s.stopRun .exitsWithinGrace).finalState.port = none
    ∧ (s.stopRun .exitsWithinGrace).finalState.process = none
    ∧ (s.stopRun .exitsAfterForce).signals = ["SIGTERM", "SIGKILL"]
    ∧ (s.stopRun .exitsAfterForce).resolved = true
    ∧ (s.stopRun .exitsAfterForce).finalState.isRunning = false
    ∧ (s.stopRun .exitsAfterForce).finalState.port = none
    ∧ (s.stopRun .exitsAfterForce).finalState.process = none
    ∧ (s.stopRun .neverExits).resolved = false
    ∧ ({ s with process := none } : BackendManager).stopRun env
        = { signals := [], resolved := true, finalState := { s with process := none } }
    ∧ STOP_GRACE_MS = 5000 := by
  simp [BackendManager.stopRun, hp, STOP_GRACE_MS]

/-- Concrete run of `c8_graceful_then_forced_stop`: stopping a tracked
process that ignores SIGTERM. -/
theorem c8_graceful_then_forced_stop_witness :
    (({ process := some 3, port := some 50001, isRunning := true, startupPromise := none,
        nextPromiseId := 1, spawnCount := 1 } : BackendManager).stopRun
          .exitsAfterForce).signals = ["SIGTERM", "SIGKILL"]
    ∧ (({ process := some 3, port := some 50001, isRunning := true, startupPromise := none,
          nextPromiseId := 1, spawnCount := 1 } : BackendManager).stopRun
            .exitsAfterForce).resolved = true := by
  have h := c8_graceful_then_forced_stop
    { process := some 3, port := some 50001, isRunning := true, startupPromise := none,
      nextPromiseId := 1, spawnCount := 1 } 3 .exitsWithinGrace (by decide)
  exact ⟨h.2.2.2.2.2.1, h.2.2.2.2.2.2.1⟩

/-- C9 as stated is false on the code: after a startup-timeout failure the
startup promise resolves with isRunning=false and the failure message, but
the status available via the public getStatus() path carries error = null —
getStatus hardcodes its error field to null, so the failure is only
observable in the value start() itself resolves with. -/
theorem c9_public_status_path_hides_error :
    (BackendManager.initial.startRun
        { spawnFault := none, pid := 7, stdoutChunks := [], healthyInTime := true }).resolved.error
      = some "Backend did not announce port within timeout"
    ∧ (BackendManager.initial.startRun
        { spawnFault := none, pid := 7, stdoutChunks := [],
          healthyInTime := true }).resolved.isRunning = false
    ∧ (BackendManager.initial.startRun
        { spawnFault := none, pid := 7, stdoutChunks := [],
          healthyInTime := true }).state.getStatus.error = none := by
  decide

/-- C9 amended: start() never rejects — every startup run resolves with a
status, and every failing outcome (spawn fault, startup timeout, falsy
port, health-check timeout) resolves with isRunning=false and a non-null
error in that returned status; the public getStatus() path always reports
error = null, so the failure is visible only in start()'s resolved value. -/
theorem c9_amended_failures_resolve_with_error (s : BackendManager) (env : StartEnv) :
    ((s.startRun env).resolved.isRunning = true
      ∨ ((s.startRun env).resolved.isRunning = false
          ∧ (s.startRun env).resolved.error ≠ none))
    ∧ s.getStatus.error = none := by
  refine ⟨?_, rfl⟩
  unfold BackendManager.startRun
  cases hr : s.isRunning
  · simp only [hr, Bool.false_eq_true, if_false]
    split
    · simp
    · split
      · simp
      · split
        · simp
        · split
          · simp
          · simp
  · simp [hr, BackendManager.getStatus]

/-- C10: when a port is announced but the readiness wait then fails, the
startup promise resolves with a failed status (isRunning=false, the
health-timeout error) after probing, yet the manager's internal state keeps
isRunning=true, the announced port and the tracked process: getStatus still
reports isRunning=true with the port, and getBaseUrl still returns the
URL — the failed start attempt does not roll the internal state back. -/
theorem c10_health_timeout_keeps_internal_state (s : BackendManager) (env : StartEnv)
    (p : Nat) (hrun : s.isRunning = false) (hport : s.port = none)
    (hspawn : env.spawnFault = none)
    (hlast : (announcedPorts env.stdoutChunks).foldl (fun _ q => some q) none = some p)
    (hp0 : ¬ p = 0) (hhealthy : env.healthyInTime = false) :
    (s.startRun env).resolved.isRunning = false
    ∧ (s.startRun env).resolved.error = some "Backend did not become healthy within timeout"
    ∧ (s.startRun env).probed = true
    ∧ (s.startRun env).state.getStatus.isRunning = true
    ∧ (s.startRun env).state.getStatus.port = some p
    ∧ (s.startRun env).state.getStatus.error = none
    ∧ (s.startRun env).state.getBaseUrl = some ("http://127.0.0.1:" ++ toString p) := by
  have hnotrun : ¬ (s.isRunning = true) := by
    simp [hrun]
  have hfold : (env.stdoutChunks.foldl BackendManager.onStdoutData
      { s with process := some env.pid, spawnCount := s.spawnCount + 1 }).port = some p := by
    rw [foldl_onStdoutData_port]
    simpa [hport] using hlast
  unfold BackendManager.startRun
  rw [if_neg hnotrun]
  simp only [hspawn, hfold]
  simp [hp0, hhealthy, BackendManager.getStatus, BackendManager.getBaseUrl]

/-- Concrete run of `c10_health_timeout_keeps_internal_state`: the backend
announces port 50001 but its health endpoint never reports healthy. -/
theorem c10_health_timeout_keeps_internal_state_witness :
    (BackendManager.initial.startRun
        { spawnFault := none, pid := 7, stdoutChunks := ["PORT:50001"],
          healthyInTime := false }).resolved.isRunning = false
    ∧ (BackendManager.initial.startRun
        { spawnFault := none, pid := 7, stdoutChunks := ["PORT:50001"],
          healthyInTime := false }).state.getStatus.isRunning = true
    ∧ (BackendManager.initial.startRun
        { spawnFault := none, pid := 7, stdoutChunks := ["PORT:50001"],
          healthyInTime := false }).state.getStatus.port = some 50001 := by
  have h := c10_health_timeout_keeps_internal_state BackendManager.initial
    { spawnFault := none, pid := 7, stdoutChunks := ["PORT:50001"], healthyInTime := false }
    50001 (by decide) (by decide) (by decide) (by decide) (by decide) (by decide)
  exact ⟨h.1, h.2.2.2.1, h.2.2.2.2.1⟩
